import Mathlib

/-!
Verification of the vocode streaming components against their specification.

Shallow embedding of two source files:
* `src/vocode/streaming/synthesizer/miniaudio_worker.py` (`MiniaudioWorker`)
* `src/vocode/streaming/agent/llamacpp_agent.py` (`LlamacppAgent`)

External collaborators (the mp3 decoder `decode_mp3`, the resampler
`convert_wav`, the langchain inference backend) are not part of the
repository: they appear as explicit function parameters, exactly at the
call sites where the source invokes them.
-/

namespace Vocode

/-- A byte buffer, modelled as a list of byte values. -/
abbrev Chunk := List Nat

/-- Audio encodings recognised by the synthesizer configuration
(`vocode.streaming.models.synthesizer`). -/
inductive AudioEncoding where
  | linear16
  | mulaw
deriving DecidableEq, Repr

/-- The fields of `SynthesizerConfig` that `MiniaudioWorker._run_loop`
reads: `sampling_rate` and `audio_encoding`. -/
structure SynthesizerConfig where
  sampling_rate : Nat
  audio_encoding : AudioEncoding
deriving DecidableEq, Repr

namespace MiniaudioWorker

/-- One iteration of `MiniaudioWorker._run_loop`
(`miniaudio_worker.py`, lines 22-43), mapping the `(mp3_chunk, is_last)`
tuple pulled from the input queue to the tuple pushed to the output queue:

* `mp3_chunk is None` → push `(None, True)` and continue;
* `decode_mp3` raises `miniaudio.DecodeError` (modelled as `decode`
  returning `none`) → log, push `(None, True)` and continue;
* otherwise → push `(convert_wav(decoded, sampling_rate, audio_encoding),
  is_last)`.

`decode` embeds the external `decode_mp3`; `convert` embeds the external
`convert_wav`. -/
def runLoopStep (decode : Chunk → Option Chunk)
    (convert : Chunk → Nat → AudioEncoding → Chunk)
    (cfg : SynthesizerConfig) :
    Option Chunk × Bool → Option Chunk × Bool
  | (none, _) => (none, true)
  | (some mp3_chunk, is_last) =>
    match decode mp3_chunk with
    | none => (none, true)
    | some wav =>
        (some (convert wav cfg.sampling_rate cfg.audio_encoding), is_last)

/-- The `while True` loop of `MiniaudioWorker._run_loop`, run over a finite
prefix of the input queue: each pulled item yields exactly one pushed item,
in pull order, and the loop never exits on its own. -/
def runLoop (decode : Chunk → Option Chunk)
    (convert : Chunk → Nat → AudioEncoding → Chunk)
    (cfg : SynthesizerConfig) :
    List (Option Chunk × Bool) → List (Option Chunk × Bool)
  | [] => []
  | item :: rest =>
      runLoopStep decode convert cfg item :: runLoop decode convert cfg rest

theorem runLoop_eq_map (decode : Chunk → Option Chunk)
    (convert : Chunk → Nat → AudioEncoding → Chunk)
    (cfg : SynthesizerConfig) (inputs : List (Option Chunk × Bool)) :
    runLoop decode convert cfg inputs =
      inputs.map (runLoopStep decode convert cfg) := by
  induction inputs with
  | nil => rfl
  | cons item rest ih => simp [runLoop, ih]

theorem runLoop_append (decode : Chunk → Option Chunk)
    (convert : Chunk → Nat → AudioEncoding → Chunk)
    (cfg : SynthesizerConfig) (xs ys : List (Option Chunk × Bool)) :
    runLoop decode convert cfg (xs ++ ys) =
      runLoop decode convert cfg xs ++ runLoop decode convert cfg ys := by
  simp [runLoop_eq_map]

theorem runLoopStep_of_decode_some (decode : Chunk → Option Chunk)
    (convert : Chunk → Nat → AudioEncoding → Chunk)
    (cfg : SynthesizerConfig) (c : Chunk) (b : Bool)
    (h : (decode c).isSome = true) :
    runLoopStep decode convert cfg (some c, b) =
      ((decode c).map (fun w => convert w cfg.sampling_rate cfg.audio_encoding), b) := by
  cases hd : decode c with
  | none => rw [hd] at h; simp at h
  | some wav => simp [runLoopStep, hd]

theorem runLoop_success_prefix (decode : Chunk → Option Chunk)
    (convert : Chunk → Nat → AudioEncoding → Chunk)
    (cfg : SynthesizerConfig) (ins : List (Chunk × Bool))
    (h : ∀ p ∈ ins, (decode p.1).isSome = true) :
    runLoop decode convert cfg (ins.map (fun p => (some p.1, p.2))) =
      ins.map (fun p =>
        ((decode p.1).map (fun w => convert w cfg.sampling_rate cfg.audio_encoding),
          p.2)) := by
  induction ins with
  | nil => rfl
  | cons p rest ih =>
      simp only [List.map_cons, runLoop]
      refine congrArg₂ _ ?_ (ih fun q hq => h q (List.mem_cons_of_mem p hq))
      exact runLoopStep_of_decode_some decode convert cfg p.1 p.2
        (h p (List.mem_cons_self p rest))

end MiniaudioWorker

section PipelineExamples

/-- Example decoder for concrete runs: fails exactly on the buffer `[0]`. -/
def decodeEx : Chunk → Option Chunk := fun c => if c = [0] then none else some c

/-- Example resampler for concrete runs: tags the buffer with the target rate. -/
def convertEx : Chunk → Nat → AudioEncoding → Chunk := fun w sr _ => w ++ [sr]

/-- Example synthesizer configuration for concrete runs. -/
def cfgEx : SynthesizerConfig := { sampling_rate := 8, audio_encoding := .linear16 }

/-- Example successful input stream for concrete runs. -/
def insEx : List (Chunk × Bool) := [([1], false), ([2], true)]

end PipelineExamples

/-! ### `llamacpp_agent.py` -/

/-- A caller-supplied prompt template object (opaque to the agent apart
from being passed through). -/
structure CustomTemplate where
  body : String
deriving DecidableEq, Repr

/-- The `prompt_template` field of `LlamacppAgentConfig` as `__init__`
discriminates it: an exact string (`type(...) is str`), a non-string
template object, or a falsy/absent value. -/
inductive PromptTemplateConfig where
  | str (s : String)
  | template (t : CustomTemplate)
  | absent
deriving DecidableEq, Repr

/-- The fields of `LlamacppAgentConfig` that `__init__` reads for prompt
and memory set-up. -/
structure LlamacppAgentConfig where
  prompt_template : PromptTemplateConfig
  prompt_preamble : String
deriving DecidableEq, Repr

/-- The template text `ALPACA_TEMPLATE_WITH_HISTORY`. -/
def ALPACA_TEMPLATE_WITH_HISTORY : String :=
  "### Instruction:\nYour previous conversation history:\n{history}\n\nCurrent instruction/message to respond to: {input}\n### Response:"

/-- The prompt object `__init__` stores in `self.prompt`: the
history-flattening alpaca template, the default chat template built from
a history placeholder plus a human message, or the caller's own object. -/
inductive Prompt where
  | formatHistoryTemplate (input_variables : List String) (template : String)
  | defaultChatTemplate
  | customTemplate (t : CustomTemplate)
deriving DecidableEq, Repr

/-- Prompt-template resolution in `LlamacppAgent.__init__`
(`llamacpp_agent.py`, lines 64-83): an exact string must be `"alpaca"`
(else `ValueError`), while any non-string value takes the
`prompt_template or ChatPromptTemplate.from_messages(...)` branch and
never raises. -/
def resolvePromptTemplate : PromptTemplateConfig → Except String Prompt
  | .str s =>
      if s = "alpaca" then
        .ok (.formatHistoryTemplate ["history", "input"] ALPACA_TEMPLATE_WITH_HISTORY)
      else
        .error ("Unknown prompt template " ++ s)
  | .template t => .ok (.customTemplate t)
  | .absent => .ok .defaultChatTemplate

/-- A turn of the conversation memory
(`langchain.schema` message classes as the agent uses them). -/
inductive Message where
  | system (content : String)
  | human (content : String)
  | ai (content : String)
deriving DecidableEq, Repr

/-- The `CallbackOutput` messages the streaming callback handler writes:
either a token-carrying item or a finish item holding the aggregate
response. -/
structure CallbackOutput where
  token : Option String := none
  finish : Bool := false
  response : Option String := none
deriving DecidableEq, Repr

/-- `CustomStreamingCallbackHandler.on_llm_new_token`: append
`CallbackOutput(token=token)` to the output queue. -/
def on_llm_new_token (queue : List CallbackOutput) (token : String) :
    List CallbackOutput :=
  queue ++ [{ token := some token }]

/-- `CustomStreamingCallbackHandler.on_llm_end`: append
`CallbackOutput(finish=True, response=response)` to the output queue. -/
def on_llm_end (queue : List CallbackOutput) (response : String) :
    List CallbackOutput :=
  queue ++ [{ finish := true, response := some response }]

/-- The state `LlamacppAgent.__init__` builds. Channel identity matters
for the session claims, so the `asyncio.Queue()` allocated at line 86 and
the `CustomStreamingCallbackHandler` allocated at line 87 are named by
fresh numeric ids drawn from an allocation counter. -/
structure LlamacppAgentState where
  prompt : Prompt
  callback_queue : Nat
  callback_adapter : Nat
  memory : List Message
deriving DecidableEq, Repr

namespace LlamacppAgent

/-- `LlamacppAgent.__init__` (`llamacpp_agent.py`, lines 58-101): resolve
the prompt template (raising on an unknown string identifier), allocate
the one `callback_queue` and the one callback handler, and seed the memory
with the system preamble. Returns the constructed state together with the
allocation counter after construction. -/
def init (cfg : LlamacppAgentConfig) (fresh : Nat) :
    Except String (LlamacppAgentState × Nat) :=
  match resolvePromptTemplate cfg.prompt_template with
  | .error e => .error e
  | .ok prompt =>
      .ok ({ prompt := prompt
             callback_queue := fresh
             callback_adapter := fresh + 1
             memory := [Message.system cfg.prompt_preamble] }, fresh + 2)

/-- `LlamacppAgent.respond` (lines 103-116): run the blocking
`self.conversation.predict` on the single-worker executor, await its
value, and return `(text, False)`. The backend `predict` is the external
collaborator, passed as a function that either returns the text or raises
(`Except.error`). -/
def respond (predict : String → Except String String) (human_input : String) :
    Except String (String × Bool) :=
  (predict human_input).map fun text => (text, false)

/-- The observable behaviour of one blocking `predict` run on the worker
thread: the tokens it pushes through `on_llm_new_token` in order, and its
outcome — normal return of the full text (after which langchain fires
`on_llm_end`) or a raised backend error (after which no finish callback
fires). -/
structure PredictRun where
  tokens : List String
  outcome : Except String String
deriving Repr

/-- The contents of `self.callback_queue` after one `predict` run: each
token via `on_llm_new_token`, then — only on normal completion — the
finish item via `on_llm_end`. -/
def callbackQueueWrites (run : PredictRun) : List CallbackOutput :=
  match run.outcome with
  | .ok text => on_llm_end (run.tokens.foldl on_llm_new_token []) text
  | .error _ => run.tokens.foldl on_llm_new_token []

/-- Result of driving an async iteration over the bridging queue: either
the iteration finished, having yielded `items`, or it yielded `items` and
then blocked forever awaiting a queue item that is never written. -/
inductive StreamResult (α : Type) where
  | finished (items : List α)
  | blocked (items : List α)
deriving DecidableEq, Repr

/-- The inner `stream()` generator of `generate_response` (lines 130-136):
await a `CallbackOutput` from `self.callback_queue`, stop on
`finish = True`, otherwise yield the item. Exhausting the written items
without seeing a finish leaves the consumer blocked on the next `get`. -/
def streamItems : List CallbackOutput → StreamResult CallbackOutput
  | [] => .blocked []
  | o :: rest =>
      if o.finish then .finished []
      else
        match streamItems rest with
        | .finished items => .finished (o :: items)
        | .blocked items => .blocked (o :: items)

/-- Modelled from the spec: `stream_response_async`
(`vocode.streaming.agent.utils`, not under `src/`) — the StreamConsumer
"on each CallbackOutput with a token, yields the token", via the supplied
`get_text` accessor, in order. -/
def stream_response_async (items : List CallbackOutput)
    (get_text : CallbackOutput → Option String) : List String :=
  items.filterMap get_text

/-- The whole consumer side of `generate_response`: the inner `stream()`
over the queue contents, fed through `stream_response_async` with
`get_text = fun o => o.token` (lines 138-142). -/
def consumeQueue (queue : List CallbackOutput) : StreamResult String :=
  match streamItems queue with
  | .finished items => .finished (stream_response_async items CallbackOutput.token)
  | .blocked items => .blocked (stream_response_async items CallbackOutput.token)

/-- `LlamacppAgent.generate_response` (lines 118-142) as observed by its
caller: the predict future is fired and forgotten (its result is never
awaited), and the caller iterates the consumer over what the callbacks
wrote to `self.callback_queue`. -/
def generate_response (run : PredictRun) : StreamResult String :=
  consumeQueue (callbackQueueWrites run)

/-- The channel a `generate_response` call's consumer reads, together with
the allocation counter after the call: line 132 reads
`self.callback_queue`, the construction-time queue, and the call allocates
no queue or adapter of its own. -/
def generate_response_session (a : LlamacppAgentState) (fresh : Nat) :
    Nat × Nat :=
  (a.callback_queue, fresh)

/-- `ThreadPoolExecutor(max_workers=1)` (line 101): submissions run one at
a time, in order, each independently of the previous one's outcome. -/
def executorRun (jobs : List (Unit → Except String String)) :
    List (Except String String) :=
  jobs.map fun job => job ()

theorem foldl_on_llm_new_token (tokens : List String)
    (queue : List CallbackOutput) :
    tokens.foldl on_llm_new_token queue =
      queue ++ tokens.map (fun t => { token := some t }) := by
  induction tokens generalizing queue with
  | nil => simp
  | cons t rest ih => simp [on_llm_new_token, ih]

theorem streamItems_tokens (tokens : List String) :
    streamItems (tokens.map (fun t => ({ token := some t } : CallbackOutput))) =
      .blocked (tokens.map (fun t => { token := some t })) := by
  induction tokens with
  | nil => rfl
  | cons t rest ih => simp [streamItems, ih]

theorem filterMap_token_map (tokens : List String) :
    (tokens.map (fun t => ({ token := some t } : CallbackOutput))).filterMap
        CallbackOutput.token = tokens := by
  induction tokens with
  | nil => rfl
  | cons t rest ih => simp [List.filterMap_cons, ih]

theorem consumeQueue_tokens (tokens : List String) :
    consumeQueue (tokens.map (fun t => ({ token := some t } : CallbackOutput))) =
      .blocked tokens := by
  simp only [consumeQueue, streamItems_tokens, stream_response_async]
  rw [filterMap_token_map]

theorem streamItems_until_finish (items : List CallbackOutput)
    (fin : CallbackOutput) (rest : List CallbackOutput)
    (hitems : ∀ o ∈ items, o.finish = false) (hfin : fin.finish = true) :
    streamItems (items ++ fin :: rest) = .finished items := by
  induction items with
  | nil => simp [streamItems, hfin]
  | cons o items ih =>
      have ho := hitems o (List.mem_cons_self o items)
      have ih2 := ih fun q hq => hitems q (List.mem_cons_of_mem o hq)
      simp [streamItems, ho, ih2]

end LlamacppAgent

section AgentExamples

/-- Example agent configuration taking the non-string default-template
branch of `__init__`. -/
def cfgAbsentEx : LlamacppAgentConfig :=
  { prompt_template := .absent, prompt_preamble := "You are helpful." }

/-- The agent state that `LlamacppAgent.init cfgAbsentEx 5` builds. -/
def agentAbsentEx : LlamacppAgentState :=
  { prompt := .defaultChatTemplate, callback_queue := 5, callback_adapter := 6,
    memory := [Message.system "You are helpful."] }

end AgentExamples

/-- C1 counterexample: on the agent built at allocation counter 0, a first
and a second `generate_response` call both read channel 0 — the queue
allocated once at construction — and neither call draws a fresh
allocation (the counter stays at the value construction left it): the
channel is shared across calls on the same agent, not fresh per call. -/
theorem fresh_session_counterexample :
    (LlamacppAgent.init cfgAbsentEx 0).map
        (fun p =>
          ((LlamacppAgent.generate_response_session p.1 p.2).1,
            (LlamacppAgent.generate_response_session p.1
              (LlamacppAgent.generate_response_session p.1 p.2).2).1,
            (LlamacppAgent.generate_response_session p.1
              (LlamacppAgent.generate_response_session p.1 p.2).2).2)) =
      .ok (0, 0, 2) := rfl

/-- C1 (amended): the BridgingChannel a `generate_response` call's
consumer reads is the single `callback_queue` allocated once by
`__init__`; every call on the same agent reads that same channel and
allocates no channel or adapter of its own. -/
theorem generate_response_shares_construction_queue
    (cfg : LlamacppAgentConfig) (fresh : Nat) (a : LlamacppAgentState)
    (c : Nat) (h : LlamacppAgent.init cfg fresh = .ok (a, c)) :
    (LlamacppAgent.generate_response_session a c).1 = fresh ∧
    (LlamacppAgent.generate_response_session a c).2 = c ∧
    (LlamacppAgent.generate_response_session a
        (LlamacppAgent.generate_response_session a c).2).1 = fresh := by
  have hq : a.callback_queue = fresh := by
    cases hr : resolvePromptTemplate cfg.prompt_template with
    | error e => simp [LlamacppAgent.init, hr] at h
    | ok prompt =>
        simp only [LlamacppAgent.init, hr, Except.ok.injEq, Prod.mk.injEq] at h
        obtain ⟨h1, h2⟩ := h
        rw [← h1]
  exact ⟨hq, rfl, hq⟩

/-- Witness for the amended C1 at a concrete construction. -/
theorem generate_response_shares_construction_queue_witness :
    LlamacppAgent.init cfgAbsentEx 5 = .ok (agentAbsentEx, 7) ∧
    ((LlamacppAgent.generate_response_session agentAbsentEx 7).1 = 5 ∧
      (LlamacppAgent.generate_response_session agentAbsentEx 7).2 = 7 ∧
      (LlamacppAgent.generate_response_session agentAbsentEx
          (LlamacppAgent.generate_response_session agentAbsentEx 7).2).1 = 5) :=
  ⟨rfl,
    generate_response_shares_construction_queue cfgAbsentEx 5 agentAbsentEx 7 rfl⟩

/-- C5: construction succeeds for the string identifier `"alpaca"`
(mapping to the history-flattening instruction template), fails during
construction itself — not at call time — with the configuration error for
every other string identifier, and a non-string template value never
raises this construction error. -/
theorem prompt_template_validation (preamble : String) (fresh : Nat) :
    LlamacppAgent.init
        { prompt_template := .str "alpaca", prompt_preamble := preamble } fresh =
      .ok ({ prompt := .formatHistoryTemplate ["history", "input"]
                ALPACA_TEMPLATE_WITH_HISTORY
             callback_queue := fresh
             callback_adapter := fresh + 1
             memory := [Message.system preamble] }, fresh + 2) ∧
    (∀ s, s ≠ "alpaca" →
      LlamacppAgent.init
          { prompt_template := .str s, prompt_preamble := preamble } fresh =
        .error ("Unknown prompt template " ++ s)) ∧
    (∀ t, ∃ a, LlamacppAgent.init
        { prompt_template := .template t, prompt_preamble := preamble } fresh =
          .ok a) ∧
    (∃ a, LlamacppAgent.init
        { prompt_template := .absent, prompt_preamble := preamble } fresh =
          .ok a) := by
  refine ⟨rfl, ?_, fun t => ⟨_, rfl⟩, ⟨_, rfl⟩⟩
  intro s hs
  simp [LlamacppAgent.init, resolvePromptTemplate, hs]

/-- Witness for C5: the identifier `"unknown"` is rejected at
construction. -/
theorem prompt_template_validation_witness :
    ("unknown" : String) ≠ "alpaca" ∧
    LlamacppAgent.init
        { prompt_template := .str "unknown",
          prompt_preamble := "You are helpful." } 0 =
      .error ("Unknown prompt template " ++ "unknown") :=
  ⟨by decide,
    (prompt_template_validation "You are helpful." 0).2.1 "unknown" (by decide)⟩

/-- C8: the consumer of a `generate_response` stream yields the token of
each token-carrying item in the order the items were written to the
queue, and on the first item with `finish = true` it stops, yielding
nothing for that finish item (or anything after it). -/
theorem consumer_yields_tokens_in_order (items : List CallbackOutput)
    (fin : CallbackOutput) (rest : List CallbackOutput)
    (hitems : ∀ o ∈ items, o.finish = false) (hfin : fin.finish = true) :
    LlamacppAgent.consumeQueue (items ++ fin :: rest) =
      .finished (items.filterMap CallbackOutput.token) := by
  simp [LlamacppAgent.consumeQueue,
    LlamacppAgent.streamItems_until_finish items fin rest hitems hfin,
    LlamacppAgent.stream_response_async]

/-- Witness for C8 at a concrete two-token queue. -/
theorem consumer_yields_tokens_in_order_witness :
    (∀ o ∈ [({ token := some "He" } : CallbackOutput), { token := some "llo" }],
        o.finish = false) ∧
    ({ finish := true, response := some "Hello" } : CallbackOutput).finish
        = true ∧
    LlamacppAgent.consumeQueue
        ([{ token := some "He" }, { token := some "llo" }] ++
          ({ finish := true, response := some "Hello" } : CallbackOutput) :: []) =
      .finished ([({ token := some "He" } : CallbackOutput),
        { token := some "llo" }].filterMap CallbackOutput.token) :=
  ⟨by decide, by decide,
    consumer_yields_tokens_in_order
      [{ token := some "He" }, { token := some "llo" }]
      { finish := true, response := some "Hello" } [] (by decide) (by decide)⟩

/-- C9: whenever the blocking predict call returns a text, `respond`
returns exactly that text paired with the fixed interrupt flag `false`. -/
theorem respond_returns_predict_text (predict : String → Except String String)
    (human_input text : String) (h : predict human_input = .ok text) :
    LlamacppAgent.respond predict human_input = .ok (text, false) := by
  simp [LlamacppAgent.respond, h, Except.map]

/-- Witness for C9 at a concrete predict result. -/
theorem respond_returns_predict_text_witness :
    (fun _ : String => (Except.ok "Hello there" : Except String String)) "Hi" =
      Except.ok "Hello there" ∧
    LlamacppAgent.respond (fun _ => Except.ok "Hello there") "Hi" =
      Except.ok ("Hello there", false) :=
  ⟨rfl,
    respond_returns_predict_text (fun _ => Except.ok "Hello there") "Hi"
      "Hello there" rfl⟩

/-- C4 counterexample: a predict call that emits one token and then raises
`"backend down"` inside `generate_response` leaves that call's consumer
blocked forever after yielding the token — the backend error is never
delivered to the caller, contrary to the claimed propagation. -/
theorem backend_failure_counterexample :
    LlamacppAgent.generate_response
        { tokens := ["Hel"], outcome := .error "backend down" } =
      .blocked ["Hel"] := rfl

/-- C4 (amended): a backend failure inside the blocking predict call
propagates to the caller for `respond`, whose awaited executor future
rethrows it, is not retried, and the single-worker executor still runs
the next submission; but for `generate_response` the future is never
awaited — the failure is silently dropped, no finish marker is written,
and the stream consumer blocks forever after the tokens already emitted,
never receiving the error. -/
theorem backend_failure_behaviour (predict : String → Except String String)
    (human_input e : String) (run : LlamacppAgent.PredictRun)
    (job2 : Unit → Except String String)
    (h1 : predict human_input = .error e) (h2 : run.outcome = .error e) :
    LlamacppAgent.respond predict human_input = .error e ∧
    LlamacppAgent.generate_response run = .blocked run.tokens ∧
    LlamacppAgent.executorRun [fun _ => predict human_input, job2] =
      [.error e, job2 ()] := by
  refine ⟨by simp [LlamacppAgent.respond, h1, Except.map], ?_,
    by simp [LlamacppAgent.executorRun, h1]⟩
  have hw : LlamacppAgent.callbackQueueWrites run =
      run.tokens.map (fun t => { token := some t }) := by
    simp [LlamacppAgent.callbackQueueWrites, h2,
      LlamacppAgent.foldl_on_llm_new_token]
  show LlamacppAgent.consumeQueue (LlamacppAgent.callbackQueueWrites run) =
    .blocked run.tokens
  rw [hw, LlamacppAgent.consumeQueue_tokens]

/-- Witness for the amended C4 at a concrete failing run. -/
theorem backend_failure_behaviour_witness :
    (fun _ : String => (Except.error "backend down" : Except String String))
        "Hi" = Except.error "backend down" ∧
    ({ tokens := ["Hel"], outcome := .error "backend down" } :
        LlamacppAgent.PredictRun).outcome = Except.error "backend down" ∧
    (LlamacppAgent.respond (fun _ => Except.error "backend down") "Hi" =
        .error "backend down" ∧
      LlamacppAgent.generate_response
          { tokens := ["Hel"], outcome := .error "backend down" } =
        .blocked (["Hel"] : List String) ∧
      LlamacppAgent.executorRun
          [fun _ =>
            (fun _ : String =>
              (Except.error "backend down" : Except String String)) "Hi",
            fun _ => Except.ok "fine"] =
        [.error "backend down",
          (fun _ : Unit => (Except.ok "fine" : Except String String)) ()]) :=
  ⟨rfl, rfl,
    backend_failure_behaviour (fun _ => Except.error "backend down") "Hi"
      "backend down" { tokens := ["Hel"], outcome := .error "backend down" }
      (fun _ => Except.ok "fine") rfl rfl⟩

/-- C3: feeding the pipeline M non-terminal chunks followed by one terminal
marker, with every decode succeeding, yields exactly the M chunks decoded
and resampled to the configured sample rate and encoding, in input order
with each `is_last` flag preserved, followed by exactly one terminal
marker; and each of those M outputs is non-terminal. -/
theorem pipeline_success_stream (decode : Chunk → Option Chunk)
    (convert : Chunk → Nat → AudioEncoding → Chunk)
    (cfg : SynthesizerConfig) (ins : List (Chunk × Bool)) (tb : Bool)
    (h : ∀ p ∈ ins, (decode p.1).isSome = true) :
    MiniaudioWorker.runLoop decode convert cfg
        (ins.map (fun p => (some p.1, p.2)) ++ [(none, tb)]) =
      ins.map (fun p =>
        ((decode p.1).map (fun w => convert w cfg.sampling_rate cfg.audio_encoding),
          p.2)) ++ [(none, true)] ∧
    ∀ p ∈ ins,
      ((decode p.1).map
        (fun w => convert w cfg.sampling_rate cfg.audio_encoding)).isSome = true := by
  constructor
  · rw [MiniaudioWorker.runLoop_append,
      MiniaudioWorker.runLoop_success_prefix decode convert cfg ins h]
    rfl
  · intro p hp
    have := h p hp
    simpa using this

/-- Witness for C3 at a concrete two-chunk stream. -/
theorem pipeline_success_stream_witness :
    (∀ p ∈ insEx, (decodeEx p.1).isSome = true) ∧
    (MiniaudioWorker.runLoop decodeEx convertEx cfgEx
        (insEx.map (fun p => (some p.1, p.2)) ++ [(none, false)]) =
      insEx.map (fun p =>
        ((decodeEx p.1).map
          (fun w => convertEx w cfgEx.sampling_rate cfgEx.audio_encoding),
          p.2)) ++ [(none, true)] ∧
    ∀ p ∈ insEx,
      ((decodeEx p.1).map
        (fun w => convertEx w cfgEx.sampling_rate cfgEx.audio_encoding)).isSome
          = true) :=
  ⟨by decide, pipeline_success_stream decodeEx convertEx cfgEx insEx false (by decide)⟩

/-- C6: an absent input chunk makes the worker immediately push
`(None, True)` and continue the loop on the remaining inputs: the marker is
not treated as shutdown, so later inputs (further streams) are still
served. -/
theorem pipeline_terminal_forwarded (decode : Chunk → Option Chunk)
    (convert : Chunk → Nat → AudioEncoding → Chunk)
    (cfg : SynthesizerConfig) (b : Bool) (rest : List (Option Chunk × Bool)) :
    MiniaudioWorker.runLoop decode convert cfg ((none, b) :: rest) =
      (none, true) :: MiniaudioWorker.runLoop decode convert cfg rest := rfl

/-- C7: a chunk whose decode fails makes the worker push `(None, True)` and
continue the loop on the remaining inputs: the decode error never escapes
the loop body and the worker keeps serving subsequent inputs. -/
theorem pipeline_decode_error_recovered (decode : Chunk → Option Chunk)
    (convert : Chunk → Nat → AudioEncoding → Chunk)
    (cfg : SynthesizerConfig) (c : Chunk) (b : Bool)
    (rest : List (Option Chunk × Bool)) (h : decode c = none) :
    MiniaudioWorker.runLoop decode convert cfg ((some c, b) :: rest) =
      (none, true) :: MiniaudioWorker.runLoop decode convert cfg rest := by
  simp [MiniaudioWorker.runLoop, MiniaudioWorker.runLoopStep, h]

/-- Witness for C7 at a concrete failing chunk. -/
theorem pipeline_decode_error_recovered_witness :
    decodeEx [0] = none ∧
    MiniaudioWorker.runLoop decodeEx convertEx cfgEx
        [(some [0], false), (some [1], true)] =
      (none, true) ::
        MiniaudioWorker.runLoop decodeEx convertEx cfgEx [(some [1], true)] :=
  ⟨by decide,
    pipeline_decode_error_recovered decodeEx convertEx cfgEx [0] false
      [(some [1], true)] (by decide)⟩

/-- C10: every item the worker pushes whose chunk is absent carries the
flag `true`: `(None, False)` never reaches the output queue, whatever the
inputs (including `(None, False)` inputs and failing chunks whose
`is_last` was `false`). -/
theorem pipeline_absent_output_is_terminal (decode : Chunk → Option Chunk)
    (convert : Chunk → Nat → AudioEncoding → Chunk)
    (cfg : SynthesizerConfig) (inputs : List (Option Chunk × Bool)) :
    ∀ o ∈ MiniaudioWorker.runLoop decode convert cfg inputs,
      o.1 = none → o.2 = true := by
  induction inputs with
  | nil => intro o ho; simp [MiniaudioWorker.runLoop] at ho
  | cons item rest ih =>
      intro o ho habs
      rcases List.mem_cons.mp ho with hhd | htl
      · subst hhd
        match item with
        | (none, b) => rfl
        | (some c, b) =>
            simp only [MiniaudioWorker.runLoopStep] at habs ⊢
            cases hd : decode c with
            | none => simp [hd]
            | some wav => rw [hd] at habs; simp at habs
      · exact ih o htl habs

/-- Witness for C10 on a run holding a `(None, False)` input and a failing
chunk with `is_last = false`. -/
theorem pipeline_absent_output_is_terminal_witness :
    ((none, true) : Option Chunk × Bool) ∈
        MiniaudioWorker.runLoop decodeEx convertEx cfgEx
          [(none, false), (some [0], false)] ∧
    (((none, true) : Option Chunk × Bool)).2 = true :=
  ⟨by decide,
    pipeline_absent_output_is_terminal decodeEx convertEx cfgEx
      [(none, false), (some [0], false)] (none, true) (by decide) (by decide)⟩

/-- C2 counterexample: with chunk 1 failing decode and chunk 2 (same
stream, `is_last = true`) decoding fine, the output is the terminal marker
followed by the decoded chunk 2 — an item follows the terminal marker and
the worker did process the chunk after the failure, so the output is not
the claimed `[(None, True)]` alone. -/
theorem pipeline_decode_failure_counterexample :
    MiniaudioWorker.runLoop decodeEx convertEx cfgEx
        [(some [0], false), (some [1], true)] =
      [(none, true), (some [1, 8], true)] ∧
    MiniaudioWorker.runLoop decodeEx convertEx cfgEx
        [(some [0], false), (some [1], true)] ≠
      [(none, true)] := by decide

/-- C2 (amended): when decode fails at chunk k, the output carries the
k-1 successful decoded chunks followed by one terminal marker — but the
worker then continues with the remaining inputs, whose outputs follow that
terminal marker on the same channel. -/
theorem pipeline_decode_failure (decode : Chunk → Option Chunk)
    (convert : Chunk → Nat → AudioEncoding → Chunk)
    (cfg : SynthesizerConfig) (pre : List (Chunk × Bool)) (bad : Chunk)
    (b : Bool) (post : List (Option Chunk × Bool))
    (hpre : ∀ p ∈ pre, (decode p.1).isSome = true)
    (hbad : decode bad = none) :
    MiniaudioWorker.runLoop decode convert cfg
        (pre.map (fun p => (some p.1, p.2)) ++ (some bad, b) :: post) =
      pre.map (fun p =>
        ((decode p.1).map (fun w => convert w cfg.sampling_rate cfg.audio_encoding),
          p.2)) ++
        (none, true) :: MiniaudioWorker.runLoop decode convert cfg post := by
  rw [MiniaudioWorker.runLoop_append,
    MiniaudioWorker.runLoop_success_prefix decode convert cfg pre hpre]
  refine congrArg _ ?_
  simp [MiniaudioWorker.runLoop, MiniaudioWorker.runLoopStep, hbad]

/-- Witness for the amended C2 at a concrete stream. -/
theorem pipeline_decode_failure_witness :
    (∀ p ∈ insEx, (decodeEx p.1).isSome = true) ∧ decodeEx [0] = none ∧
    MiniaudioWorker.runLoop decodeEx convertEx cfgEx
        (insEx.map (fun p => (some p.1, p.2)) ++ (some [0], true) :: [(none, false)]) =
      insEx.map (fun p =>
        ((decodeEx p.1).map
          (fun w => convertEx w cfgEx.sampling_rate cfgEx.audio_encoding),
          p.2)) ++
        (none, true) ::
          MiniaudioWorker.runLoop decodeEx convertEx cfgEx [(none, false)] :=
  ⟨by decide, by decide,
    pipeline_decode_failure decodeEx convertEx cfgEx insEx [0] true
      [(none, false)] (by decide) (by decide)⟩

end Vocode
